import Mathlib

/-!
Verification of the beamer-copy transfer/relayer subsystems.

Definitions are shallow embeddings of the TypeScript sources:
* `src/relayer/src/map.ts` (strategy registry and dispatch),
* `src/frontend/src/validation/validators.ts` (input validators),
* the `Transfer` step state machine and the RelayStrategy contract, whose
  implementation files are not part of the source tree; those parts are
  modelled from the specification (each such definition is marked
  `Modelled from the spec:` in its doc comment).
-/

/-! ## Decimal string codec for 256-bit unsigned integers -/

/-- Character for a single decimal digit value (0 ↦ '0', …, 9 ↦ '9'). -/
def digitChar (d : Nat) : Char := Char.ofNat (48 + d)

/-- Numeric value of a decimal digit character. -/
def charDigit (c : Char) : Nat := c.toNat - 48

/-- Big-endian decimal digit characters of `n`, with explicit structural fuel. -/
def natToDecimalAux : Nat → Nat → List Char
  | 0, _ => []
  | fuel + 1, n =>
    if n < 10 then [digitChar n]
    else natToDecimalAux fuel (n / 10) ++ [digitChar (n % 10)]

/-- Modelled from the spec: 256-bit integer fields are serialized as decimal
strings ("serialize as decimal strings, never native floats"). -/
def encodeUInt256 (n : Nat) : String := String.mk (natToDecimalAux (n + 1) n)

/-- Modelled from the spec: parsing a decimal string back into an unsigned
integer; fails on the empty string or any non-digit character. -/
def decodeUInt256 (s : String) : Option Nat :=
  if s.data = [] then none
  else if s.data.all Char.isDigit then
    some (s.data.foldl (fun a c => 10 * a + charDigit c) 0)
  else none

/-! ## Data model of the Transfer entity (spec §3)

The `Transfer` class implementation is not part of the source tree (only its
test suite is); all `Transfer` definitions below are modelled from the spec,
with the observable behaviour cross-checked against the test expectations. -/

/-- Modelled from the spec: chain descriptor (network identifier, RPC endpoint,
deployed request-manager/fill-manager contract addresses). -/
structure ChainData where
  identifier : Nat
  rpcUrl : String
  requestManagerAddress : String
  fillManagerAddress : String
deriving DecidableEq

/-- Modelled from the spec: token descriptor (address, decimals). -/
structure TokenData where
  address : String
  decimals : Nat
deriving DecidableEq

/-- Modelled from the spec: a token quantity with 256-bit unsigned integer
semantics, together with its token descriptor. -/
structure TokenAmount where
  amount : Nat
  token : TokenData
deriving DecidableEq

/-- Modelled from the spec: mutable request metadata record. -/
structure RequestMetadata where
  requestAccount : Option String
  transactionHash : Option String
  identifier : Option Nat
deriving DecidableEq

/-- Modelled from the spec: record populated once fulfillment is observed
(fill transaction hash, filler address). -/
structure RequestFillMetadata where
  fillTransactionHash : String
  fillerAddress : String
deriving DecidableEq

/-- Modelled from the spec: step descriptor with a stable identifier used to
look up its executor function. -/
structure StepData where
  identifier : String
deriving DecidableEq

/-- Modelled from the spec: the central Transfer entity (spec §3). -/
structure Transfer where
  amount : TokenAmount
  sourceChain : ChainData
  sourceToken : TokenData
  targetChain : ChainData
  targetToken : TokenData
  targetAccount : String
  validityPeriod : Nat
  fees : Nat
  requestMetadata : RequestMetadata
  requestFillMetadata : Option RequestFillMetadata
  steps : List StepData
deriving DecidableEq

/-- Modelled from the spec: encoded token amount, 256-bit value as a decimal
string. -/
structure TokenAmountData where
  amount : String
  token : TokenData
deriving DecidableEq

/-- Modelled from the spec: encoded request metadata, identifier as a decimal
string. -/
structure RequestMetadataData where
  requestAccount : Option String
  transactionHash : Option String
  identifier : Option String
deriving DecidableEq

/-- Modelled from the spec: the flat structured serialized Transfer format
(spec §6), 256-bit integers as decimal strings. -/
structure TransferData where
  amount : TokenAmountData
  sourceChain : ChainData
  sourceToken : TokenData
  targetChain : ChainData
  targetToken : TokenData
  targetAccount : String
  validityPeriod : String
  fees : String
  requestMetadata : RequestMetadataData
  requestFillMetadata : Option RequestFillMetadata
  steps : List StepData
deriving DecidableEq

/-- Modelled from the spec: `encode()` produces a flat structured
representation of every Transfer field, 256-bit integers as decimal strings. -/
def Transfer.encode (t : Transfer) : TransferData :=
  { amount := ⟨encodeUInt256 t.amount.amount, t.amount.token⟩
    sourceChain := t.sourceChain
    sourceToken := t.sourceToken
    targetChain := t.targetChain
    targetToken := t.targetToken
    targetAccount := t.targetAccount
    validityPeriod := encodeUInt256 t.validityPeriod
    fees := encodeUInt256 t.fees
    requestMetadata := ⟨t.requestMetadata.requestAccount, t.requestMetadata.transactionHash,
      t.requestMetadata.identifier.map encodeUInt256⟩
    requestFillMetadata := t.requestFillMetadata
    steps := t.steps }

/-- Modelled from the spec: reconstruction of a Transfer from its encoded
form; fails when a decimal field does not parse. -/
def Transfer.decode (d : TransferData) : Option Transfer := do
  let amountValue ← decodeUInt256 d.amount.amount
  let validityPeriod ← decodeUInt256 d.validityPeriod
  let fees ← decodeUInt256 d.fees
  let requestIdentifier ← match d.requestMetadata.identifier with
    | none => some none
    | some s => (decodeUInt256 s).map some
  some { amount := ⟨amountValue, d.amount.token⟩
         sourceChain := d.sourceChain
         sourceToken := d.sourceToken
         targetChain := d.targetChain
         targetToken := d.targetToken
         targetAccount := d.targetAccount
         validityPeriod := validityPeriod
         fees := fees
         requestMetadata := ⟨d.requestMetadata.requestAccount,
           d.requestMetadata.transactionHash, requestIdentifier⟩
         requestFillMetadata := d.requestFillMetadata
         steps := d.steps }

/-- Modelled from the spec: validity of a Transfer, i.e. every 256-bit
unsigned integer field is within range. -/
def Transfer.valid (t : Transfer) : Bool :=
  decide (t.amount.amount < 2 ^ 256) && decide (t.validityPeriod < 2 ^ 256) &&
    decide (t.fees < 2 ^ 256) &&
    (t.requestMetadata.identifier.map (fun i => decide (i < 2 ^ 256))).getD true

/-! ## Transfer step operations (spec §4.1)

The gateway collaborators (`request-manager` / `fill-manager`, spec §6) are
modelled by an environment record supplying their responses, and every step
operation additionally returns the exact sequence of gateway invocations it
performed, so that call counts, call order and call arguments are provable. -/

/-- Modelled from the spec: one invocation of a ContractGateway operation
(spec §6 lists the three consumed operations with their argument lists). -/
inductive GatewayCall where
  | sendRequest (signer : String) (amount : Nat) (targetChainId : Nat)
      (requestManagerAddress sourceTokenAddress targetTokenAddress
        targetAccount : String) (validityPeriod fees : Nat)
  | getRequestIdentifier (rpcUrl requestManagerAddress transactionHash : String)
  | waitForFulfillment (rpcUrl : String) (identifier : Nat) (fillManagerAddress : String)
deriving DecidableEq

/-- Modelled from the spec: responses of the external gateway collaborators
(returned transaction hash, protocol-assigned request identifier, observed
fill metadata). -/
structure GatewayEnv where
  requestTransactionHash : String
  requestIdentifier : Nat
  fillMetadata : RequestFillMetadata
deriving DecidableEq

/-- Modelled from the spec: error taxonomy of the Transfer state machine
(spec §7): `precondition` for a step run before its required metadata was
populated, `stepExecution` wrapping a failed step's cause tagged with the
step identifier. -/
inductive TransferError where
  | precondition (message : String)
  | stepExecution (stepIdentifier message : String)
deriving DecidableEq

/-- Message carried by a Transfer error. -/
def TransferError.message : TransferError → String
  | .precondition m => m
  | .stepExecution _ m => m

/-- Modelled from the spec: `sendRequestTransaction(signer, signerAddress)`
submits the request with `(amount, targetChain.identifier, sourceToken.address,
targetToken.address, targetAccount, validityPeriod, fees)` to the source
chain's request manager and on success sets
`requestMetadata.requestAccount = signerAddress` and
`requestMetadata.transactionHash` to the returned hash. -/
def Transfer.sendRequestTransaction (t : Transfer) (env : GatewayEnv)
    (signer signerAddress : String) :
    Transfer × Except TransferError (List GatewayCall) :=
  ({ t with requestMetadata :=
      { t.requestMetadata with
        requestAccount := some signerAddress
        transactionHash := some env.requestTransactionHash } },
   Except.ok [GatewayCall.sendRequest signer t.amount.amount t.targetChain.identifier
      t.sourceChain.requestManagerAddress t.sourceToken.address t.targetToken.address
      t.targetAccount t.validityPeriod t.fees])

/-- Modelled from the spec: `waitForRequestEvent()` fails with a
`PreconditionError` when `requestMetadata.transactionHash` is empty or unset;
otherwise it connects to the source chain, queries the request identifier
keyed by the stored transaction hash and sets `requestMetadata.identifier`. -/
def Transfer.waitForRequestEvent (t : Transfer) (env : GatewayEnv) :
    Transfer × Except TransferError (List GatewayCall) :=
  match t.requestMetadata.transactionHash with
  | none =>
    (t, Except.error (TransferError.precondition
      "Attempt to get request event before sending transaction!"))
  | some transactionHash =>
    if transactionHash = "" then
      (t, Except.error (TransferError.precondition
        "Attempt to get request event before sending transaction!"))
    else
      ({ t with requestMetadata :=
          { t.requestMetadata with identifier := some env.requestIdentifier } },
       Except.ok [GatewayCall.getRequestIdentifier t.sourceChain.rpcUrl
          t.sourceChain.requestManagerAddress transactionHash])

/-- Modelled from the spec: `waitForFulfillment()` fails with a
`PreconditionError` when `requestMetadata.identifier` is unset; otherwise it
connects to the target chain, blocks until the fill manager reports
fulfillment for that identifier and populates `requestFillMetadata`. -/
def Transfer.waitForFulfillment (t : Transfer) (env : GatewayEnv) :
    Transfer × Except TransferError (List GatewayCall) :=
  match t.requestMetadata.identifier with
  | none =>
    (t, Except.error (TransferError.precondition
      "Attempting to wait for fulfillment without request identifier!"))
  | some requestIdentifier =>
    ({ t with requestFillMetadata := some env.fillMetadata },
     Except.ok [GatewayCall.waitForFulfillment t.targetChain.rpcUrl requestIdentifier
        t.targetChain.fillManagerAddress])

/-- Type of a step executor: reads the gateway environment and the current
transfer state, returns the updated state and the gateway calls performed. -/
abbrev StepFn := GatewayEnv → Transfer → Transfer × Except TransferError (List GatewayCall)

/-- Modelled from the spec: `getStepMethods(signer, signerAddress)` returns a
mapping from step identifier to executor closures over the signer. -/
def Transfer.getStepMethods (_t : Transfer) (signer signerAddress : String) :
    String → Option StepFn :=
  fun stepId =>
    if stepId = "sendRequestTransaction" then
      some (fun env t => t.sendRequestTransaction env signer signerAddress)
    else if stepId = "waitForRequestEvent" then
      some (fun env t => t.waitForRequestEvent env)
    else if stepId = "waitForFulfillment" then
      some (fun env t => t.waitForFulfillment env)
    else none

/-- Modelled from the spec: the fixed ordered step sequence declared at
construction of a fresh Transfer. -/
def transferSteps : List StepData :=
  [⟨"sendRequestTransaction"⟩, ⟨"waitForRequestEvent"⟩, ⟨"waitForFulfillment"⟩]

/-- Modelled from the spec: a valid Transfer construction declares exactly the
fixed ordered step sequence. -/
def Transfer.validConstruction (t : Transfer) : Prop := t.steps = transferSteps

/-- Modelled from the spec: sequential step runner behind `execute` — runs the
given steps in order, awaiting each before starting the next, stopping at the
first failure, which it wraps in a `StepExecutionError` carrying the failing
step's identifier. Besides the final state and result it returns the list of
step identifiers whose executors were invoked, in invocation order. -/
def Transfer.executeSteps (env : GatewayEnv) (signer signerAddress : String) :
    Transfer → List StepData → Transfer × Except TransferError Unit × List String
  | t, [] => (t, Except.ok (), [])
  | t, step :: rest =>
    match t.getStepMethods signer signerAddress step.identifier with
    | none =>
      (t, Except.error (TransferError.stepExecution step.identifier
        "no executor defined for step"), [])
    | some f =>
      match f env t with
      | (t', Except.error e) =>
        (t', Except.error (TransferError.stepExecution step.identifier e.message),
         [step.identifier])
      | (t', Except.ok _) =>
        let r := Transfer.executeSteps env signer signerAddress t' rest
        (r.1, r.2.1, step.identifier :: r.2.2)

/-- Modelled from the spec: `execute(signer, signerAddress)` runs every step in
`steps` order, sequentially, awaiting each before starting the next. -/
def Transfer.execute (t : Transfer) (env : GatewayEnv) (signer signerAddress : String) :
    Transfer × Except TransferError Unit × List String :=
  Transfer.executeSteps env signer signerAddress t t.steps

/-! ## Relayer dispatch registry (src/relayer/src/map.ts) -/

/-- Strategy classes imported by `map.ts` (one per supported chain family). -/
inductive RelayerServiceClass where
  | arbitrum
  | boba
  | ethereum
  | optimism
  | polygonZKEvm
deriving DecidableEq

/-- Modelled from the spec: constructor arguments of a relayer strategy
(source RPC URL, destination RPC URL, wallet private key, transaction hash to
relay, optional custom network configuration); opaque to the dispatch logic
in `map.ts`. -/
structure RelayerArgs where
  l1RpcUrl : String
  l2RelayToRpcUrl : String
  l2RelayFromRpcUrl : String
  walletPrivateKey : String
  l2TransactionHash : String
  networkFrom : Option String
  networkTo : Option String
deriving DecidableEq

/-- A constructed strategy instance: `new Relayer(...args)` in `map.ts`. -/
structure RelayerInstance where
  serviceClass : RelayerServiceClass
  args : RelayerArgs
deriving DecidableEq

/-- The static `SERVICES` registry of `map.ts`: network identifier to
strategy class. -/
def SERVICES : List (Nat × RelayerServiceClass) :=
  [(42161, .arbitrum), (421613, .arbitrum), (412346, .arbitrum),
   (2888, .boba), (288, .boba),
   (10, .optimism), (420, .optimism), (17, .optimism),
   (1, .ethereum), (5, .ethereum), (1337, .ethereum),
   (1101, .polygonZKEvm), (1442, .polygonZKEvm), (1001, .polygonZKEvm)]

/-- `createRelayer` of `map.ts`: looks the network identifier up in
`SERVICES`; constructs the mapped strategy class when found, otherwise throws
`No relayer program found for ...!`. -/
def createRelayer (networkId : Nat) (args : RelayerArgs) :
    Except String RelayerInstance :=
  match List.lookup networkId SERVICES with
  | some serviceClass => Except.ok ⟨serviceClass, args⟩
  | none => Except.error ("No relayer program found for " ++ Nat.repr networkId ++ "!")

/-- Network identifiers registered for one chain family, in registry order. -/
def familyIds (serviceClass : RelayerServiceClass) : List Nat :=
  (SERVICES.filter (fun p => p.2 == serviceClass)).map Prod.fst

/-! ## RelayStrategy contract (spec §4.3)

The strategy implementations are not part of the source tree; the shared
`run()` contract is modelled from the spec. -/

/-- Modelled from the spec: destination-chain state a RelayStrategy observes
and modifies — which source transaction hashes were already relayed, and how
many destination-chain transactions were submitted. -/
structure RelayChainState where
  relayedHashes : List String
  submissions : Nat
deriving DecidableEq

/-- Modelled from the spec: relay errors surfaced to the caller;
`RelayAlreadyExecutedError` never surfaces because `run()` normalizes it to
success. -/
inductive RelayError where
  | notReady
deriving DecidableEq

/-- Modelled from the spec: the shared `run()` contract — a duplicate relay
attempt detects prior execution and completes successfully with no new
destination-chain submission; an unfinalized source transaction fails with
`RelayNotReadyError`; otherwise one destination-chain transaction is
submitted and the hash is recorded as relayed. -/
def RelayStrategy.run (finalized : Bool) (txHash : String) (st : RelayChainState) :
    RelayChainState × Except RelayError Unit :=
  if st.relayedHashes.contains txHash then
    (st, Except.ok ())
  else if finalized then
    ({ relayedHashes := txHash :: st.relayedHashes, submissions := st.submissions + 1 },
     Except.ok ())
  else
    (st, Except.error RelayError.notReady)

/-! ## Frontend validators (src/frontend/src/validation/validators.ts) -/

/-- Deterministic matcher for the anchored regular expression of
`isUnsignedNumeric`: a block of digits, then an optional single dot, then a
block of digits, then the end of the string. -/
def matchNumericChars : List Char → Bool
  | [] => true
  | c :: cs =>
    if c.isDigit then matchNumericChars cs
    else if c = '.' then cs.all Char.isDigit
    else false

/-- `isUnsignedNumeric` of `validators.ts`: tests the whole string against
the anchored regular expression (digits, optional dot, digits). -/
def isUnsignedNumeric (value : String) : Bool := matchNumericChars value.data

/-! ## Sample data for witnesses -/

/-- Concrete gateway environment used by witnesses. -/
def sampleEnv : GatewayEnv := ⟨"0xHash", 1, ⟨"0xFillTx", "0xFiller"⟩⟩

/-- Concrete fresh Transfer used by witnesses; mirrors the scenario of the
test suite (amount "1", target chain identifier 2, validity period "3",
fees "4"). -/
def sampleTransfer : Transfer :=
  { amount := ⟨1, ⟨"0xSourceToken", 18⟩⟩
    sourceChain := ⟨1, "https://source.rpc", "0xRequestManager", "0xSourceFillManager"⟩
    sourceToken := ⟨"0xSourceToken", 18⟩
    targetChain := ⟨2, "https://target.rpc", "0xTargetRequestManager", "0xFillManager"⟩
    targetToken := ⟨"0xTargetToken", 18⟩
    targetAccount := "0xTargetAccount"
    validityPeriod := 3
    fees := 4
    requestMetadata := ⟨none, none, none⟩
    requestFillMetadata := none
    steps := transferSteps }

/-- Concrete relayer constructor arguments used by witnesses. -/
def sampleRelayerArgs : RelayerArgs :=
  ⟨"http://l1.rpc", "http://to.rpc", "http://from.rpc", "0xKey", "0xTx", none, none⟩

/-- Concrete Transfer whose request transaction hash is the empty string,
used by witnesses. -/
def sampleTransferEmptyHash : Transfer :=
  { sampleTransfer with requestMetadata := ⟨some "0xAccount", some "", none⟩ }

/-- Concrete Transfer whose request identifier is unset, used by witnesses. -/
def sampleTransferNoIdentifier : Transfer :=
  { sampleTransfer with requestMetadata := ⟨some "0xAccount", some "0xHash", none⟩ }

/-- Concrete relay chain state in which hash "0xAbc" was already relayed,
used by witnesses. -/
def sampleRelayState : RelayChainState := ⟨["0xAbc"], 1⟩

/-! ## Theorems -/

theorem charDigit_digitChar (d : Nat) (h : d < 10) : charDigit (digitChar d) = d := by
  interval_cases d <;> rfl

theorem isDigit_digitChar (d : Nat) (h : d < 10) : (digitChar d).isDigit = true := by
  interval_cases d <;> rfl

theorem natToDecimalAux_ne_nil (fuel n : Nat) (h : 0 < fuel) :
    natToDecimalAux fuel n ≠ [] := by
  match fuel with
  | f + 1 =>
    rw [natToDecimalAux]
    split
    · simp
    · simp

theorem natToDecimalAux_all_digits (fuel : Nat) :
    ∀ n, (natToDecimalAux fuel n).all Char.isDigit = true := by
  induction fuel with
  | zero => intro n; rfl
  | succ f ih =>
    intro n
    rw [natToDecimalAux]
    split
    · next h => simp [isDigit_digitChar n h]
    · next h =>
      simp [List.all_append, ih (n / 10), isDigit_digitChar (n % 10) (Nat.mod_lt _ (by omega))]

theorem natToDecimalAux_foldl (fuel : Nat) :
    ∀ n acc, n ≤ fuel →
      List.foldl (fun a c => 10 * a + charDigit c) acc (natToDecimalAux fuel n)
        = acc * 10 ^ (natToDecimalAux fuel n).length + n := by
  induction fuel with
  | zero =>
    intro n acc h
    have hn : n = 0 := Nat.le_zero.mp h
    subst hn
    simp [natToDecimalAux]
  | succ f ih =>
    intro n acc h
    rw [natToDecimalAux]
    split
    · next hn =>
      simp [charDigit_digitChar n hn]
      ring
    · next hn =>
      have hdiv : n / 10 < n := Nat.div_lt_self (by omega) (by omega)
      have hle : n / 10 ≤ f := by omega
      rw [List.foldl_append, ih (n / 10) acc hle]
      have hmod : n % 10 < 10 := Nat.mod_lt _ (by omega)
      simp [charDigit_digitChar (n % 10) hmod, List.length_append, pow_succ]
      have := Nat.div_add_mod n 10
      ring_nf
      omega

theorem decodeUInt256_encodeUInt256 (n : Nat) :
    decodeUInt256 (encodeUInt256 n) = some n := by
  have hne : natToDecimalAux (n + 1) n ≠ [] := natToDecimalAux_ne_nil _ _ (by omega)
  have hall : (natToDecimalAux (n + 1) n).all Char.isDigit = true :=
    natToDecimalAux_all_digits _ _
  have hfold := natToDecimalAux_foldl (n + 1) n 0 (by omega)
  simp only [decodeUInt256, encodeUInt256]
  rw [if_neg hne, if_pos hall, hfold]
  simp

theorem decode_encode_transfer (t : Transfer) : Transfer.decode t.encode = some t := by
  rcases t with ⟨⟨av, atk⟩, sc, stk, tc, ttk, ta, vp, fs, ⟨ra, th, idf⟩, rfm, steps⟩
  cases idf <;>
    simp [Transfer.encode, Transfer.decode, decodeUInt256_encodeUInt256]

/-- Claim C1: for every valid Transfer t, decoding the structured data produced
by `t.encode()` into a new Transfer and calling `encode()` on it yields
structured data equal to `encode(t)` — a lossless round-trip with no precision
loss on the 256-bit integer fields. -/
theorem c1_encode_roundtrip (t : Transfer) (h : t.valid = true) :
    (Transfer.decode t.encode).map Transfer.encode = some t.encode := by
  rw [decode_encode_transfer]
  rfl

theorem c1_encode_roundtrip_witness :
    sampleTransfer.valid = true ∧
      (Transfer.decode sampleTransfer.encode).map Transfer.encode
        = some sampleTransfer.encode :=
  ⟨by decide, c1_encode_roundtrip sampleTransfer (by decide)⟩

/-- Claim C2: `createRelayer` fails with the unsupported-network error for
every network identifier absent from the `SERVICES` registry, and returns an
instance of the strategy class mapped to the identifier for every identifier
present in the registry. -/
theorem c2_createRelayer_dispatch (networkId : Nat) (args : RelayerArgs) :
    (List.lookup networkId SERVICES = none →
      createRelayer networkId args
        = Except.error ("No relayer program found for " ++ Nat.repr networkId ++ "!")) ∧
    (∀ serviceClass, List.lookup networkId SERVICES = some serviceClass →
      createRelayer networkId args = Except.ok ⟨serviceClass, args⟩) := by
  constructor
  · intro h
    simp [createRelayer, h]
  · intro serviceClass h
    simp [createRelayer, h]

theorem c2_createRelayer_dispatch_witness :
    createRelayer 999999 sampleRelayerArgs
        = Except.error ("No relayer program found for " ++ Nat.repr 999999 ++ "!") ∧
      createRelayer 42161 sampleRelayerArgs
        = Except.ok ⟨RelayerServiceClass.arbitrum, sampleRelayerArgs⟩ :=
  ⟨(c2_createRelayer_dispatch 999999 sampleRelayerArgs).1 (by decide),
   (c2_createRelayer_dispatch 42161 sampleRelayerArgs).2 RelayerServiceClass.arbitrum
     (by decide)⟩

/-- Claim C7 counterexample: the registry does not contain an entry for every
environment of each supported chain family — Boba has only two registered
identifiers (2888 and 288), so it cannot cover the three environments
(mainnet, public testnet, local devnet). -/
theorem c7_registry_counterexample :
    familyIds RelayerServiceClass.boba = [2888, 288] ∧
      ¬(∀ serviceClass : RelayerServiceClass, 3 ≤ (familyIds serviceClass).length) := by
  constructor
  · decide
  · intro h
    exact absurd (h RelayerServiceClass.boba) (by decide)

/-- Claim C7 (amended): the registry contains three identifiers (mainnet,
public testnet, local devnet) for each of Arbitrum, Optimism, Ethereum and
Polygon zkEVM, but only two (public testnet 2888 and mainnet 288) for Boba —
Boba has no local devnet entry. -/
theorem c7_registry_contents :
    familyIds RelayerServiceClass.arbitrum = [42161, 421613, 412346] ∧
    familyIds RelayerServiceClass.boba = [2888, 288] ∧
    familyIds RelayerServiceClass.optimism = [10, 420, 17] ∧
    familyIds RelayerServiceClass.ethereum = [1, 5, 1337] ∧
    familyIds RelayerServiceClass.polygonZKEvm = [1101, 1442, 1001] := by
  decide

theorem all_isDigit_iff (cs : List Char) :
    cs.all Char.isDigit = true ↔
      (cs.all (fun c => c.isDigit || c == '.') = true ∧ cs.count '.' = 0) := by
  induction cs with
  | nil => simp
  | cons c cs ih =>
    by_cases hc : c = '.'
    · subst hc
      simp [List.count_cons]
    · have hc' : ¬('.' = c) := fun h => hc h.symm
      simp [List.count_cons, hc, hc', ih]
      tauto

theorem matchNumericChars_iff (cs : List Char) :
    matchNumericChars cs = true ↔
      (cs.all (fun c => c.isDigit || c == '.') = true ∧ cs.count '.' ≤ 1) := by
  induction cs with
  | nil => simp [matchNumericChars]
  | cons c cs ih =>
    by_cases hd : c.isDigit
    · have hc : ¬(c = '.') := by
        intro h
        subst h
        exact absurd hd (by decide)
      have hc' : ¬('.' = c) := fun h => hc h.symm
      simp [matchNumericChars, hd, hc, hc', List.count_cons, ih]
    · by_cases hc : c = '.'
      · subst hc
        have lhs : matchNumericChars ('.' :: cs) = cs.all Char.isDigit := rfl
        rw [lhs, all_isDigit_iff]
        have hcount : ('.' :: cs).count '.' = cs.count '.' + 1 := by
          simp [List.count_cons]
        have hall : (('.' :: cs).all (fun c => c.isDigit || c == '.'))
            = cs.all (fun c => c.isDigit || c == '.') := by
          simp
        rw [hcount, hall]
        constructor
        · rintro ⟨h1, h2⟩
          exact ⟨h1, by omega⟩
        · rintro ⟨h1, h2⟩
          exact ⟨h1, by omega⟩
      · have hc' : ¬('.' = c) := fun h => hc h.symm
        simp [matchNumericChars, hd, hc, hc']

/-- Claim C10: `isUnsignedNumeric` returns true for a string exactly when it
consists of digits with at most one decimal point; in particular it returns
true for the empty string and for the lone string ".". -/
theorem c10_isUnsignedNumeric_spec :
    (∀ s : String, isUnsignedNumeric s = true ↔
      (s.data.all (fun c => c.isDigit || c == '.') = true ∧ s.data.count '.' ≤ 1)) ∧
    isUnsignedNumeric "" = true ∧ isUnsignedNumeric "." = true := by
  refine ⟨fun s => matchNumericChars_iff s.data, ?_, ?_⟩ <;> decide

/-- Claim C3: calling `waitForRequestEvent` on a Transfer whose
`requestMetadata.transactionHash` is empty or unset fails with a
`PreconditionError` and does not set `requestMetadata.identifier` (the state,
including the identifier, is returned unchanged). -/
theorem c3_waitForRequestEvent_precondition (t : Transfer) (env : GatewayEnv)
    (h : t.requestMetadata.transactionHash = none ∨
      t.requestMetadata.transactionHash = some "") :
    t.waitForRequestEvent env
      = (t, Except.error (TransferError.precondition
          "Attempt to get request event before sending transaction!")) := by
  rcases h with h | h <;> simp [Transfer.waitForRequestEvent, h]

theorem c3_waitForRequestEvent_precondition_witness :
    (sampleTransferEmptyHash.requestMetadata.transactionHash = none ∨
      sampleTransferEmptyHash.requestMetadata.transactionHash = some "") ∧
    sampleTransferEmptyHash.waitForRequestEvent sampleEnv
      = (sampleTransferEmptyHash, Except.error (TransferError.precondition
          "Attempt to get request event before sending transaction!")) :=
  ⟨Or.inr rfl,
   c3_waitForRequestEvent_precondition sampleTransferEmptyHash sampleEnv (Or.inr rfl)⟩

/-- Claim C4: calling `waitForFulfillment` on a Transfer whose
`requestMetadata.identifier` is unset fails with a `PreconditionError` and
leaves `requestFillMetadata` unchanged (hence unset). -/
theorem c4_waitForFulfillment_precondition (t : Transfer) (env : GatewayEnv)
    (h : t.requestMetadata.identifier = none) :
    t.waitForFulfillment env
        = (t, Except.error (TransferError.precondition
            "Attempting to wait for fulfillment without request identifier!")) ∧
      (t.waitForFulfillment env).1.requestFillMetadata = t.requestFillMetadata := by
  constructor <;> simp [Transfer.waitForFulfillment, h]

theorem c4_waitForFulfillment_precondition_witness :
    sampleTransferNoIdentifier.requestMetadata.identifier = none ∧
    (sampleTransferNoIdentifier.waitForFulfillment sampleEnv
        = (sampleTransferNoIdentifier, Except.error (TransferError.precondition
            "Attempting to wait for fulfillment without request identifier!")) ∧
      (sampleTransferNoIdentifier.waitForFulfillment sampleEnv).1.requestFillMetadata
        = sampleTransferNoIdentifier.requestFillMetadata) :=
  ⟨rfl, c4_waitForFulfillment_precondition sampleTransferNoIdentifier sampleEnv rfl⟩

/-- Claim C5: for the scenario transfer (amount "1", target chain identifier 2,
validity period "3", fees "4" and the given contract/token/account addresses),
`sendRequestTransaction` invokes the request-manager gateway exactly once with
the signer, amount, target chain identifier, request-manager address, source
token address, target token address, target account, validity period and fees,
and on success sets `requestMetadata.requestAccount` to the signer address and
`requestMetadata.transactionHash` to the hash the gateway returned. -/
theorem c5_sendRequestTransaction_scenario (env : GatewayEnv)
    (signer signerAddress : String) :
    (sampleTransfer.sendRequestTransaction env signer signerAddress).2
        = Except.ok [GatewayCall.sendRequest signer 1 2 "0xRequestManager"
            "0xSourceToken" "0xTargetToken" "0xTargetAccount" 3 4] ∧
      (sampleTransfer.sendRequestTransaction env signer
          signerAddress).1.requestMetadata.requestAccount = some signerAddress ∧
      (sampleTransfer.sendRequestTransaction env signer
          signerAddress).1.requestMetadata.transactionHash
        = some env.requestTransactionHash :=
  ⟨rfl, rfl, rfl⟩

/-- Claim C6: for every valid Transfer construction, every step identifier
declared in `steps` resolves to a defined executor in the mapping returned by
`getStepMethods`. -/
theorem c6_getStepMethods_complete (t : Transfer) (signer signerAddress : String)
    (h : t.validConstruction) :
    ∀ step ∈ t.steps,
      (t.getStepMethods signer signerAddress step.identifier).isSome = true := by
  intro step hstep
  rw [Transfer.validConstruction] at h
  rw [h] at hstep
  simp [transferSteps] at hstep
  rcases hstep with h1 | h1 | h1 <;> subst h1 <;> rfl

theorem c6_getStepMethods_complete_witness :
    sampleTransfer.validConstruction ∧
      (sampleTransfer.getStepMethods "0xSigner" "0xSigner"
        (StepData.mk "waitForFulfillment").identifier).isSome = true :=
  ⟨rfl, c6_getStepMethods_complete sampleTransfer "0xSigner" "0xSigner" rfl
    (StepData.mk "waitForFulfillment") (by decide)⟩

/-- Claim C8: `execute` invokes each declared step's executor exactly once and
in the exact order of the `steps` sequence — the recorded invocation trace is
exactly the list of declared step identifiers (sequential awaiting is modelled
by threading each step's resulting state into its successor). -/
theorem c8_execute_order (t : Transfer) (env : GatewayEnv)
    (signer signerAddress : String) (hsteps : t.steps = transferSteps)
    (hhash : ¬env.requestTransactionHash = "") :
    (t.execute env signer signerAddress).2.2 = t.steps.map StepData.identifier ∧
      (t.execute env signer signerAddress).2.1 = Except.ok () := by
  rw [Transfer.execute, hsteps]
  simp [transferSteps, Transfer.executeSteps, Transfer.getStepMethods,
        Transfer.sendRequestTransaction, Transfer.waitForRequestEvent,
        Transfer.waitForFulfillment, hhash]

theorem c8_execute_order_witness :
    (sampleTransfer.steps = transferSteps ∧
      ¬sampleEnv.requestTransactionHash = "") ∧
    ((sampleTransfer.execute sampleEnv "0xSigner" "0xSigner").2.2
        = sampleTransfer.steps.map StepData.identifier ∧
      (sampleTransfer.execute sampleEnv "0xSigner" "0xSigner").2.1 = Except.ok ()) :=
  ⟨⟨rfl, by decide⟩,
   c8_execute_order sampleTransfer sampleEnv "0xSigner" "0xSigner" rfl (by decide)⟩

/-- Claim C9: invoking `run()` for an already-relayed transaction hash
completes successfully — both on the first and on a second invocation — and
submits no additional destination-chain transaction. -/
theorem c9_run_idempotent (finalized : Bool) (txHash : String)
    (st : RelayChainState) (h : st.relayedHashes.contains txHash = true) :
    (RelayStrategy.run finalized txHash st).2 = Except.ok () ∧
      (RelayStrategy.run finalized txHash
          (RelayStrategy.run finalized txHash st).1).2 = Except.ok () ∧
      (RelayStrategy.run finalized txHash
          (RelayStrategy.run finalized txHash st).1).1.submissions
        = st.submissions := by
  have hmem : txHash ∈ st.relayedHashes := by simpa using h
  simp [RelayStrategy.run, hmem]

theorem c9_run_idempotent_witness :
    sampleRelayState.relayedHashes.contains "0xAbc" = true ∧
    ((RelayStrategy.run true "0xAbc" sampleRelayState).2 = Except.ok () ∧
      (RelayStrategy.run true "0xAbc"
          (RelayStrategy.run true "0xAbc" sampleRelayState).1).2 = Except.ok () ∧
      (RelayStrategy.run true "0xAbc"
          (RelayStrategy.run true "0xAbc" sampleRelayState).1).1.submissions
        = sampleRelayState.submissions) :=
  ⟨by decide, c9_run_idempotent true "0xAbc" sampleRelayState (by decide)⟩
